import Mathlib

/-!
# TOP-1 audio engine: the JACK binding (`src/audio/jack.cpp`)

A shallow embedding of `JackAudio::process`, `JackAudio::init`,
`JackAudio::setupPorts` and `JackAudio::connectPorts`, and of the comparison
operators of `drawing::Point` (`src/ui/canvas.h`), followed by the properties
proved about them.

Conventions of the embedding

* `unsigned char` is `Fin 256`; `uint`, `int` and `jack_nframes_t` values are
  natural numbers (no arithmetic on them can overflow in the embedded code:
  they are only compared, used as loop bounds and as indices).
* A raw `float*` is a map from index to sample.  Samples are never computed
  with, only copied, so the sample type `S` is left abstract.
* The DSP stages and the buffer class of `GLOB.audioData` are not part of
  `jack.cpp`; they are parameters (`Collaborators`).
* Calls into libjack and `GLOB.exit()` are recorded, in program order, in a
  trace; what libjack answers is a parameter (`JackServer`).
* Logging (`LOGI`, `LOGE`, ...) is not modelled.
-/

namespace TOP1

/-! ## MIDI events -/

/-- The C++ alias `using byte = unsigned char;`. -/
abbrev byte := Fin 256

/-- The libjack record `jack_midi_event_t` as `process` reads it: `time`, the
first byte `buffer[0]` and the bytes from `buffer + 1` on.  A JACK MIDI event
always holds at least its status byte. -/
structure jack_midi_event_t where
  time : Nat
  buffer0 : byte
  bufferRest : List byte
deriving DecidableEq, Repr

/-- Modelled from the spec: `events.h` is not among the sources.  The base
record `MidiEvent` with the four fields `process` assigns: `type`, `channel`,
`data` (the bytes the pointer `event.buffer + 1` points to) and `time`. -/
structure MidiEvent where
  type : Nat
  channel : Nat
  data : List byte
  time : Nat
deriving DecidableEq, Repr

/-- Modelled from the spec: enumerator `MidiEvent::NOTE_OFF`, message type
`0x8` of the dispatch table. -/
def MidiEvent.NOTE_OFF : Nat := 0x8

/-- Modelled from the spec: enumerator `MidiEvent::NOTE_ON`, message type
`0x9` of the dispatch table. -/
def MidiEvent.NOTE_ON : Nat := 0x9

/-- Modelled from the spec: enumerator `MidiEvent::CONTROL_CHANGE`, message
type `0xB` of the dispatch table. -/
def MidiEvent.CONTROL_CHANGE : Nat := 0xB

/-- An entry of `GLOB.midiEvents`: one of the three event classes, each built
from the `MidiEvent` filled in by `process`
(`new NoteOffEvent(mEvent)`, `new NoteOnEvent(mEvent)`,
`new ControlChangeEvent(mEvent)`). -/
inductive Event where
  | NoteOffEvent (e : MidiEvent)
  | NoteOnEvent (e : MidiEvent)
  | ControlChangeEvent (e : MidiEvent)
deriving DecidableEq, Repr

/-- Modelled from the spec: the typed events of the data model,
`NoteOn{channel,key,velocity,offset}`, `NoteOff{channel,key,velocity,offset}`
and `ControlChange{channel,controller,value,offset}`. -/
inductive TypedEvent where
  | NoteOn (channel key velocity offset : Nat)
  | NoteOff (channel key velocity offset : Nat)
  | ControlChange (channel controller value offset : Nat)
deriving DecidableEq, Repr

/-- Modelled from the spec: how an event class reads its two payload bytes
(`events.h` is not among the sources): the first payload byte is the key or
the controller, the second the velocity or the value.  No result when the
payload has fewer than two bytes. -/
def Event.typed : Event → Option TypedEvent
  | .NoteOffEvent e =>
    match e.data with
    | k :: v :: _ => some (.NoteOff e.channel k.val v.val e.time)
    | _ => none
  | .NoteOnEvent e =>
    match e.data with
    | k :: v :: _ => some (.NoteOn e.channel k.val v.val e.time)
    | _ => none
  | .ControlChangeEvent e =>
    match e.data with
    | c :: v :: _ => some (.ControlChange e.channel c.val v.val e.time)
    | _ => none

/-- The body of the MIDI loop of `JackAudio::process` (lines 232-255) for one
raw event: fill in `channel`, `data` and `time`, compute
`byte type = event.buffer[0] >> 4`, and `switch (type)`: append a
`NoteOffEvent`, a `NoteOnEvent` or a `ControlChangeEvent` to the queue; the
switch has no `default`, any other type leaves the queue as it is. -/
def midiLoopBody (event : jack_midi_event_t) (midiEvents : List Event) : List Event :=
  let channel := event.buffer0.val &&& 0b00001111
  let data := event.bufferRest
  let time := event.time
  let type := (event.buffer0.val >>> 4) % 256
  if type = MidiEvent.NOTE_OFF then
    midiEvents ++ [Event.NoteOffEvent ⟨MidiEvent.NOTE_OFF, channel, data, time⟩]
  else if type = MidiEvent.NOTE_ON then
    midiEvents ++ [Event.NoteOnEvent ⟨MidiEvent.NOTE_ON, channel, data, time⟩]
  else if type = MidiEvent.CONTROL_CHANGE then
    midiEvents ++ [Event.ControlChangeEvent ⟨MidiEvent.CONTROL_CHANGE, channel, data, time⟩]
  else
    midiEvents

/-- The MIDI loop `for (uint i = 0; i < nevents; i++)` of `process`:
`midiLoop midiBuf k q` is the queue after the iterations `i = 0 .. k-1`,
started on the queue `q`.  Iteration `i` fetches event `i` of the port buffer
(`jack_midi_event_get`) and runs the loop body on it. -/
def midiLoop (midiBuf : List jack_midi_event_t) : Nat → List Event → List Event
  | 0, midiEvents => midiEvents
  | i + 1, midiEvents =>
    match midiBuf[i]? with
    | some event => midiLoopBody event (midiLoop midiBuf i midiEvents)
    | none => midiLoop midiBuf i midiEvents

/-! ### The decoder as the specification words it -/

/-- The 4-bit message type of a raw event: the high nibble of its first byte. -/
def specTypeNibble (event : jack_midi_event_t) : Nat := event.buffer0.val >>> 4

/-- The 4-bit channel of a raw event: the low nibble of its first byte. -/
def specChannel (event : jack_midi_event_t) : Nat := event.buffer0.val &&& 0x0F

/-- A message type the dispatch table models: `0x8`, `0x9` or `0xB`. -/
def specModeled (event : jack_midi_event_t) : Bool :=
  specTypeNibble event = 0x8 || specTypeNibble event = 0x9 || specTypeNibble event = 0xB

/-- The dispatch table: type `0x8` gives NoteOff, `0x9` NoteOn, `0xB`
ControlChange, each with the channel, the payload bytes and the server time;
any other type gives nothing. -/
def specDecodeOne (event : jack_midi_event_t) : Option Event :=
  if specTypeNibble event = 0x8 then
    some (.NoteOffEvent ⟨0x8, specChannel event, event.bufferRest, event.time⟩)
  else if specTypeNibble event = 0x9 then
    some (.NoteOnEvent ⟨0x9, specChannel event, event.bufferRest, event.time⟩)
  else if specTypeNibble event = 0xB then
    some (.ControlChangeEvent ⟨0xB, specChannel event, event.bufferRest, event.time⟩)
  else
    none

/-- Sequence-level decoding in the words of the specification: the raw events
in server order, those with a modeled type kept, each one decoded. -/
def specDecode (midiBuf : List jack_midi_event_t) : List Event :=
  (midiBuf.filter specModeled).filterMap specDecodeOne

/-! ## The real-time callback `JackAudio::process` -/

/-- A non-null libjack handle `jack_port_t*`; where the handle may be `NULL`
the type is `Option jack_port_t`. -/
abbrev jack_port_t := Nat

/-- A non-null libjack handle `jack_client_t*`; where the handle may be `NULL`
the type is `Option jack_client_t`. -/
abbrev jack_client_t := Nat

/-- The member `ports` of `JackAudio`. -/
structure Ports where
  input : Option jack_port_t
  outL : Option jack_port_t
  outR : Option jack_port_t
  midiIn : Option jack_port_t
  midiOut : Option jack_port_t
deriving DecidableEq, Repr

/-- The data members of `JackAudio` that `jack.cpp` reads or writes. -/
structure JackAudio where
  client : Option jack_client_t
  jackStatus : Nat
  bufferSize : Nat
  processing : Bool
  ports : Ports
deriving DecidableEq, Repr

/-- The member `GLOB.audioData`: the shared input, output and scratch
buffers, indexed with `operator[]`. -/
structure AudioData (S : Type) where
  input : Nat → S
  outL : Nat → S
  outR : Nat → S
  proc : Nat → S

/-- Everything a block can read or write: the `JackAudio` object (`self`),
the memory of the port buffers that `jack_port_get_buffer` hands out for the
block (`inData`, `outLData`, `outRData`, and the events of the MIDI input
buffer), and the globals `GLOB.running()`, `GLOB.audioData`,
`GLOB.midiEvents` and the stage objects (`modules`, of a type `σ` chosen by
the stages). -/
structure World (S σ : Type) where
  self : JackAudio
  inData : Nat → S
  outLData : Nat → S
  outRData : Nat → S
  midiBuf : List jack_midi_event_t
  running : Bool
  audioData : AudioData S
  midiEvents : List Event
  modules : σ

/-- The code `process` calls that is not in `jack.cpp`: `clear()` of the
buffer class of `GLOB.audioData`, and the seven stage entry points, each
called with `nframes`.  A stage may read and write anything. -/
structure Collaborators (S σ : Type) where
  clear : (Nat → S) → (Nat → S)
  tapedeck_preProcess : Nat → World S σ → World S σ
  synth_process : Nat → World S σ → World S σ
  drums_process : Nat → World S σ → World S σ
  effect_process : Nat → World S σ → World S σ
  tapedeck_postProcess : Nat → World S σ → World S σ
  mixer_process : Nat → World S σ → World S σ
  metronome_process : Nat → World S σ → World S σ

/-- Lines 217-219: `for (uint i = 0; i < nframes; i++) input[i] = inData[i];`.
`inputLoop inData i input` is the buffer after the iterations `0 .. i-1`. -/
def inputLoop {S : Type} (inData : Nat → S) : Nat → (Nat → S) → (Nat → S)
  | 0, input => input
  | i + 1, input => Function.update (inputLoop inData i input) i (inData i)

/-- Lines 212-219 of `process`: the four `clear()` calls, then the copy of
the input port into `GLOB.audioData.input`. -/
def process_input {S σ : Type} (c : Collaborators S σ) (w : World S σ) (nframes : Nat) :
    World S σ :=
  let audioData : AudioData S :=
    { outL := c.clear w.audioData.outL
      outR := c.clear w.audioData.outR
      input := c.clear w.audioData.input
      proc := c.clear w.audioData.proc }
  { w with audioData := { audioData with input := inputLoop w.inData nframes audioData.input } }

/-- Lines 221-257 of `process`: `GLOB.midiEvents.clear()`, then the MIDI loop
over the `jack_midi_get_event_count(midiBuf)` events of the MIDI input
buffer. -/
def process_midi {S σ : Type} (w : World S σ) : World S σ :=
  let midiEvents : List Event := []
  let nevents := w.midiBuf.length
  { w with midiEvents := midiLoop w.midiBuf nevents midiEvents }

/-- Lines 259-265 of `process`: the seven stage calls. -/
def process_pipeline {S σ : Type} (c : Collaborators S σ) (w : World S σ) (nframes : Nat) :
    World S σ :=
  let w := c.tapedeck_preProcess nframes w
  let w := c.synth_process nframes w
  let w := c.drums_process nframes w
  let w := c.effect_process nframes w
  let w := c.tapedeck_postProcess nframes w
  let w := c.mixer_process nframes w
  c.metronome_process nframes w

/-- Lines 267-270: `for (uint i = 0; i < nframes; i++) { outLData[i] = outL[i];
outRData[i] = outR[i]; }`.  `outputLoop outL outR i d` is the pair of port
buffers after the iterations `0 .. i-1`. -/
def outputLoop {S : Type} (outL outR : Nat → S) :
    Nat → (Nat → S) × (Nat → S) → (Nat → S) × (Nat → S)
  | 0, d => d
  | i + 1, d =>
    let d := outputLoop outL outR i d
    (Function.update d.1 i (outL i), Function.update d.2 i (outR i))

/-- Lines 267-270 of `process`: the copy of `GLOB.audioData.outL/outR` to the
output ports. -/
def process_output {S σ : Type} (w : World S σ) (nframes : Nat) : World S σ :=
  let d := outputLoop w.audioData.outL w.audioData.outR nframes (w.outLData, w.outRData)
  { w with outLData := d.1, outRData := d.2 }

/-- The state of the block when the first stage is called: after the buffers
were cleared, the input copied and the MIDI buffer decoded. -/
def blockStart {S σ : Type} (c : Collaborators S σ) (w : World S σ) (nframes : Nat) :
    World S σ :=
  process_midi (process_input c w nframes)

/-- The method `JackAudio::process(uint nframes)`. -/
def process {S σ : Type} (c : Collaborators S σ) (w : World S σ) (nframes : Nat) :
    World S σ :=
  if !(w.self.processing && w.running) then w
  else if nframes > w.self.bufferSize then w
  else
    let w := process_input c w nframes
    let w := process_midi w
    let w := process_pipeline c w nframes
    process_output w nframes

/-! ### Recording stage stubs -/

/-- The seven stage entry points. -/
inductive StageName where
  | tapedeck_preProcess
  | synth
  | drums
  | effect
  | tapedeck_postProcess
  | mixer
  | metronome
deriving DecidableEq, Repr

/-- What a recording stub notes when it is called: which entry point, the
`nframes` it was given, the event queue it found, and the first `nframes`
samples it found in the two output port buffers. -/
structure StageCall (S : Type) where
  name : StageName
  nframes : Nat
  midiEvents : List Event
  outLData : List S
  outRData : List S

/-- A stage stub: appends its record to the log and touches nothing else. -/
def stub {S : Type} (name : StageName) (nframes : Nat) (w : World S (List (StageCall S))) :
    World S (List (StageCall S)) :=
  { w with modules := w.modules ++
      [{ name := name, nframes := nframes, midiEvents := w.midiEvents,
         outLData := (List.range nframes).map w.outLData,
         outRData := (List.range nframes).map w.outRData }] }

/-- Recording stubs for all seven stages, around a given `clear`. -/
def stubs {S : Type} (clear : (Nat → S) → (Nat → S)) : Collaborators S (List (StageCall S)) where
  clear := clear
  tapedeck_preProcess := stub .tapedeck_preProcess
  synth_process := stub .synth
  drums_process := stub .drums
  effect_process := stub .effect
  tapedeck_postProcess := stub .tapedeck_postProcess
  mixer_process := stub .mixer
  metronome_process := stub .metronome

/-- The order of stage calls the specification fixes. -/
def specStageOrder : List StageName :=
  [.tapedeck_preProcess, .synth, .drums, .effect, .tapedeck_postProcess, .mixer, .metronome]

/-! ## The control path: `init`, `setupPorts`, `findPorts`, `connectPorts` -/

/-- The libjack constant `JackNullOption` of `jack_options_t`. -/
def JackNullOption : Nat := 0x00

/-- The libjack constant `JackServerStarted` of `jack_status_t`. -/
def JackServerStarted : Nat := 0x08

/-- The libjack constant `JackPortIsInput` of `JackPortFlags`. -/
def JackPortIsInput : Nat := 0x1

/-- The libjack constant `JackPortIsOutput` of `JackPortFlags`. -/
def JackPortIsOutput : Nat := 0x2

/-- The libjack constant `JackPortIsPhysical` of `JackPortFlags`. -/
def JackPortIsPhysical : Nat := 0x4

/-- The libjack constant `JACK_DEFAULT_AUDIO_TYPE`. -/
def JACK_DEFAULT_AUDIO_TYPE : String := "32 bit float mono audio"

/-- The libjack constant `JACK_DEFAULT_MIDI_TYPE`. -/
def JACK_DEFAULT_MIDI_TYPE : String := "8 bit raw midi"

/-- The enumeration `PortType` of `jack.h`, with the two enumerators
`findPorts` tells apart. -/
inductive PortType where
  | AUDIO
  | MIDI
deriving DecidableEq, Repr

/-- One entry of the trace: a call into libjack with its arguments (the
client handle, the same in every call, and the callback closures are left
out), or a call of `GLOB.exit()`. -/
inductive Call where
  | jack_client_open (client_name : String) (options : Nat)
  | jack_set_process_callback
  | jack_set_sample_rate_callback
  | jack_set_buffer_size_callback
  | jack_set_error_function
  | jack_set_info_function
  | jack_on_shutdown
  | jack_get_buffer_size
  | jack_activate
  | jack_port_register (port_name port_type : String) (flags buffer_size : Nat)
  | jack_get_ports (type_name_pattern : String) (flags : Nat)
  | jack_connect (source_port destination_port : String)
  | jack_client_close
  | GLOB_exit
deriving DecidableEq, Repr

/-- What libjack answers.  `client_open` gives the client handle and the
value stored in `jackStatus`; `activate` and `connect` give the `int` result
codes (`0` is success); `port_register` gives the port handle or `NULL`;
`get_ports` gives the `NULL`-terminated array of names, or `nullptr`;
`port_name` is `jack_port_name` on a registered port, which only reads the
name off the port; `connect` takes the names in the order of the
`jack_connect` prototype, source port first, destination port second. -/
structure JackServer where
  client_open : String → Nat → Option jack_client_t × Nat
  get_buffer_size : Nat
  activate : Int
  port_register : String → String → Nat → Option jack_port_t
  get_ports : String → Nat → Option (List String)
  port_name : jack_port_t → String
  connect : String → String → Int

/-- The control path's state: the `JackAudio` object and the trace of calls
made so far. -/
structure Control where
  self : JackAudio
  trace : List Call
deriving DecidableEq, Repr

/-- Append a call to the trace. -/
def Control.call (s : Control) (c : Call) : Control :=
  { s with trace := s.trace ++ [c] }

/-- The call `GLOB.exit()`: process-wide shutdown is requested. -/
def Control.GLOB_exit (s : Control) : Control :=
  s.call .GLOB_exit

/-- How a method of the control path is left: by returning, or by an
exception that nothing in `jack.cpp` catches.  Either way the state is the
one reached at that point. -/
inductive Outcome where
  | returned (s : Control)
  | thrown (s : Control)
deriving DecidableEq, Repr

/-- The state in which the method was left. -/
def Outcome.state : Outcome → Control
  | .returned s => s
  | .thrown s => s

/-- The trace when the method was left. -/
def Outcome.trace (o : Outcome) : List Call := o.state.trace

/-- The `JackAudio` object when the method was left. -/
def Outcome.self (o : Outcome) : JackAudio := o.state.self

/-- Whether the method was left by an exception. -/
def Outcome.isThrown : Outcome → Bool
  | .returned _ => false
  | .thrown _ => true

/-- The expression `jack_port_name(port)` passed where a `std::string` is
expected: the name of a registered port.  For a `NULL` port there is no name
to build the string from, and building it throws. -/
def portNameString (srv : JackServer) (port : Option jack_port_t) : Option String :=
  port.map srv.port_name

/-- The method `JackAudio::startProcess()`. -/
def startProcess (s : Control) : Control :=
  { s with self := { s.self with processing := true } }

/-- The method `JackAudio::connectPorts(std::string src, std::string dest)`:
`return not jack_connect(client, dest.c_str(), src.c_str());`. -/
def connectPorts (srv : JackServer) (s : Control) (src dest : String) : Bool × Control :=
  (srv.connect dest src == 0, s.call (.jack_connect dest src))

/-- The method `JackAudio::findPorts(int criteria, PortType type)`: one
`jack_get_ports` call, its answer copied into a vector (empty for
`nullptr`). -/
def findPorts (srv : JackServer) (s : Control) (criteria : Nat) (type : PortType) :
    List String × Control :=
  let pattern := if type = PortType.AUDIO then "audio" else "midi"
  let ports := srv.get_ports pattern criteria
  let s := s.call (.jack_get_ports pattern criteria)
  match ports with
  | none => ([], s)
  | some ports => (ports, s)

/-- Lines 142-175 of `setupPorts`: the MIDI ports.  `ports.midiOut` is not
checked after its registration, so the name of a `NULL` port may be asked
for at line 172. -/
def setupPorts_midi (srv : JackServer) (s : Control) : Outcome :=
  let midiIn := srv.port_register "midiIn" JACK_DEFAULT_MIDI_TYPE JackPortIsInput
  let s := s.call (.jack_port_register "midiIn" JACK_DEFAULT_MIDI_TYPE JackPortIsInput 0)
  let s := { s with self := { s.self with ports := { s.self.ports with midiIn := midiIn } } }
  if s.self.ports.midiIn = none then .returned s.GLOB_exit
  else
    let midiOut := srv.port_register "midiOut" JACK_DEFAULT_MIDI_TYPE JackPortIsOutput
    let s := s.call (.jack_port_register "midiOut" JACK_DEFAULT_MIDI_TYPE JackPortIsOutput 0)
    let s := { s with self := { s.self with ports := { s.self.ports with midiOut := midiOut } } }
    let r := findPorts srv s (JackPortIsPhysical ||| JackPortIsOutput) PortType.MIDI
    let midiIn := r.1
    let r := findPorts srv r.2 (JackPortIsPhysical ||| JackPortIsInput) PortType.MIDI
    let midiOut := r.1
    let s := r.2
    match midiIn, midiOut with
    | [], _ => .returned s
    | _ :: _, [] => .returned s
    | midiIn0 :: _, midiOut0 :: _ =>
      match portNameString srv s.self.ports.midiIn with
      | none => .thrown s
      | some midiInName =>
        let r := connectPorts srv s midiInName midiIn0
        match portNameString srv s.self.ports.midiOut with
        | none => .thrown r.2
        | some midiOutName =>
          let r := connectPorts srv r.2 midiOut0 midiOutName
          .returned r.2

/-- The method `JackAudio::setupPorts()`.  The two `findPorts` calls of the
audio part leave out the second argument, whose default is declared in
`jack.h` (not among the sources); it is taken to be `PortType::AUDIO`, the
kind of the ports they are wired to.  `ports.outL` and `ports.outR` are not
checked after their registration, so the name of a `NULL` port may be asked
for at lines 135 and 138. -/
def setupPorts (srv : JackServer) (s : Control) : Outcome :=
  let input := srv.port_register "input" JACK_DEFAULT_AUDIO_TYPE JackPortIsInput
  let s := s.call (.jack_port_register "input" JACK_DEFAULT_AUDIO_TYPE JackPortIsInput 0)
  let s := { s with self := { s.self with ports := { s.self.ports with input := input } } }
  if s.self.ports.input = none then .returned s.GLOB_exit
  else
    let outL := srv.port_register "outLeft" JACK_DEFAULT_AUDIO_TYPE JackPortIsOutput
    let s := s.call (.jack_port_register "outLeft" JACK_DEFAULT_AUDIO_TYPE JackPortIsOutput 0)
    let s := { s with self := { s.self with ports := { s.self.ports with outL := outL } } }
    let outR := srv.port_register "outRight" JACK_DEFAULT_AUDIO_TYPE JackPortIsOutput
    let s := s.call (.jack_port_register "outRight" JACK_DEFAULT_AUDIO_TYPE JackPortIsOutput 0)
    let s := { s with self := { s.self with ports := { s.self.ports with outR := outR } } }
    let r := findPorts srv s (JackPortIsPhysical ||| JackPortIsOutput) PortType.AUDIO
    let inputs := r.1
    let r := findPorts srv r.2 (JackPortIsPhysical ||| JackPortIsInput) PortType.AUDIO
    let outputs := r.1
    let s := r.2
    match inputs, outputs with
    | [], _ => .returned s.GLOB_exit
    | _ :: _, [] => .returned s.GLOB_exit
    | inputs0 :: _, outputs0 :: outputsRest =>
      let outputs := outputs0 :: outputsRest
      match portNameString srv s.self.ports.input with
      | none => .thrown s
      | some inputName =>
        let r := connectPorts srv s inputName inputs0
        if !r.1 then .returned r.2.GLOB_exit
        else
          match portNameString srv s.self.ports.outL with
          | none => .thrown r.2
          | some outLName =>
            let r := connectPorts srv r.2
              (outputs.get ⟨0 % outputs.length, Nat.mod_lt 0 (Nat.succ_pos outputsRest.length)⟩)
              outLName
            if !r.1 then .returned r.2.GLOB_exit
            else
              match portNameString srv s.self.ports.outR with
              | none => .thrown r.2
              | some outRName =>
                let r := connectPorts srv r.2
                  (outputs.get
                    ⟨1 % outputs.length, Nat.mod_lt 1 (Nat.succ_pos outputsRest.length)⟩)
                  outRName
                if !r.1 then .returned r.2.GLOB_exit
                else setupPorts_midi srv r.2

/-- The test `!jackStatus & JackServerStarted` of `init`, as C++ parses it:
`!` binds tighter than `&`, so it is `(!jackStatus) & JackServerStarted`,
where `!jackStatus` is `1` when `jackStatus` is `0` and `0` otherwise; the
`if` is taken when the result is not `0`. -/
def init_serverCheck (jackStatus : Nat) : Bool :=
  ((if jackStatus = 0 then 1 else 0) &&& JackServerStarted) != 0

/-- The method `JackAudio::init()`; `CLIENT_NAME` is a constant of `jack.h`
(not among the sources).  An exception thrown in `setupPorts` leaves `init`
as well. -/
def init (srv : JackServer) (CLIENT_NAME : String) (s : Control) : Outcome :=
  let r := srv.client_open CLIENT_NAME JackNullOption
  let s := s.call (.jack_client_open CLIENT_NAME JackNullOption)
  let s := { s with self := { s.self with client := r.1, jackStatus := r.2 } }
  if init_serverCheck s.self.jackStatus then .returned s.GLOB_exit
  else
    let s := s.call .jack_set_process_callback
    let s := s.call .jack_set_sample_rate_callback
    let s := s.call .jack_set_buffer_size_callback
    let s := s.call .jack_set_error_function
    let s := s.call .jack_set_info_function
    let s := s.call .jack_on_shutdown
    let s := s.call .jack_get_buffer_size
    let s := { s with self := { s.self with bufferSize := srv.get_buffer_size } }
    let s := s.call .jack_activate
    if srv.activate != 0 then .returned s.GLOB_exit
    else setupPorts srv s

/-- The `jack_connect` requests of a trace, in order, as pairs
(source port, destination port). -/
def connectRequests (trace : List Call) : List (String × String) :=
  trace.filterMap fun c =>
    match c with
    | .jack_connect source_port destination_port => some (source_port, destination_port)
    | _ => none

/-- The number of `GLOB.exit()` calls of a trace. -/
def exitCalls (trace : List Call) : Nat :=
  trace.count .GLOB_exit

/-! ### Concrete inputs -/

/-- A server that answers every request with success: two capture ports and
`playback` as the playback ports. -/
def exampleServer (playback : List String) : JackServer where
  client_open := fun _ _ => (some 1, 0x08)
  get_buffer_size := 256
  activate := 0
  port_register := fun name _ _ =>
    if name = "input" then some 10 else if name = "outLeft" then some 11
    else if name = "outRight" then some 12 else if name = "midiIn" then some 13
    else some 14
  get_ports := fun pattern flags =>
    if pattern = "audio" then
      (if flags = 6 then some ["system:capture_1", "system:capture_2"] else some playback)
    else some []
  port_name := fun p =>
    if p = 10 then "TOP-1:input" else if p = 11 then "TOP-1:outLeft"
    else if p = 12 then "TOP-1:outRight" else if p = 13 then "TOP-1:midiIn"
    else "TOP-1:midiOut"
  connect := fun _ _ => 0

/-- A server that could not be started: `jack_client_open` gives no client
and the status `JackFailure | JackServerFailed`; every later request on the
missing client fails. -/
def failedServer : JackServer where
  client_open := fun _ _ => (none, 0x11)
  get_buffer_size := 0
  activate := 1
  port_register := fun _ _ _ => none
  get_ports := fun _ _ => none
  port_name := fun _ => ""
  connect := fun _ _ => 1

/-- The server `exampleServer`, except that registering the port `midiIn`
fails. -/
def midiInFailServer (playback : List String) : JackServer :=
  { exampleServer playback with
    port_register := fun name type flags =>
      if name = "midiIn" then none else (exampleServer playback).port_register name type flags }

/-- The server `exampleServer`, except that registering the port `input`
fails. -/
def inputFailServer (playback : List String) : JackServer :=
  { exampleServer playback with
    port_register := fun name type flags =>
      if name = "input" then none else (exampleServer playback).port_register name type flags }

/-- The server `exampleServer`, except that registering the ports `outLeft`
and `midiIn` fails. -/
def outLeftFailServer (playback : List String) : JackServer :=
  { exampleServer playback with
    port_register := fun name type flags =>
      if name = "outLeft" ∨ name = "midiIn" then none
      else (exampleServer playback).port_register name type flags }

/-- A server that accepts the connection from port `a` to port `b` and no
other. -/
def oneWayServer : JackServer :=
  { exampleServer [] with
    connect := fun source_port destination_port =>
      if source_port = "a" ∧ destination_port = "b" then 0 else 1 }

/-- The state of a `JackAudio` object before `init`. -/
def exampleControl : Control :=
  { self := { client := none, jackStatus := 0, bufferSize := 0, processing := false,
              ports := ⟨none, none, none, none, none⟩ },
    trace := [] }

/-- A block for the examples: integer samples, recording stubs. -/
def exampleWorld (processing : Bool) (bufferSize : Nat) (midiEvents : List Event) :
    World Int (List (StageCall Int)) :=
  { self := { client := some 1, jackStatus := 0x08, bufferSize := bufferSize,
              processing := processing,
              ports := ⟨some 10, some 11, some 12, some 13, some 14⟩ },
    inData := fun i => (i : Int) + 1,
    outLData := fun _ => 7,
    outRData := fun _ => 8,
    midiBuf := [⟨0, 0x90, [0x3C, 0x64]⟩, ⟨3, 0xA0, [0x3C, 0x10]⟩, ⟨5, 0x80, [0x3C, 0x40]⟩],
    running := true,
    audioData := ⟨fun _ => 0, fun i => 2 * (i : Int), fun i => 3 * (i : Int), fun _ => 0⟩,
    midiEvents := midiEvents,
    modules := [] }

/-! ## Drawing: `Point` (`src/ui/canvas.h`) -/

/-- The struct `drawing::Point`: the two coordinates `x` and `y`.  The source
has them as `float`; they are only compared here, so the coordinate type is
any type with decidable equality. -/
structure drawing.Point (α : Type) where
  x : α
  y : α
deriving DecidableEq, Repr

/-- The member `bool operator==(Point rhs) const`:
`return x == rhs.x && y == rhs.y;`. -/
def drawing.Point.operatorEq {α : Type} [DecidableEq α] (p rhs : drawing.Point α) : Bool :=
  decide (p.x = rhs.x) && decide (p.y = rhs.y)

/-- The member `bool operator!=(Point rhs) const`:
`return x != rhs.x && y != rhs.y;`. -/
def drawing.Point.operatorNe {α : Type} [DecidableEq α] (p rhs : drawing.Point α) : Bool :=
  decide (p.x ≠ rhs.x) && decide (p.y ≠ rhs.y)

/-! ## Properties of the MIDI decoder -/

/-- The cast to `byte` of the shifted status byte loses nothing. -/
theorem type_cast (b : byte) : (b.val >>> 4) % 256 = b.val >>> 4 := by
  have h := b.isLt
  rw [Nat.shiftRight_eq_div_pow]
  omega

/-- The loop body appends what the dispatch table gives for the event. -/
theorem midiLoopBody_eq (event : jack_midi_event_t) (q : List Event) :
    midiLoopBody event q = q ++ (specDecodeOne event).toList := by
  simp only [midiLoopBody, specDecodeOne, specTypeNibble, specChannel, type_cast,
    MidiEvent.NOTE_OFF, MidiEvent.NOTE_ON, MidiEvent.CONTROL_CHANGE]
  split_ifs <;> simp

/-- After `k` iterations the queue has grown by the decoded events of the
first `k` raw events. -/
theorem midiLoop_eq (midiBuf : List jack_midi_event_t) (k : Nat) (q : List Event) :
    midiLoop midiBuf k q = q ++ (midiBuf.take k).filterMap specDecodeOne := by
  induction k with
  | zero => simp [midiLoop]
  | succ i ih =>
    rw [midiLoop, List.take_succ, List.filterMap_append, ih]
    cases h : midiBuf[i]? with
    | none => simp
    | some event =>
      simp only [midiLoopBody_eq, Option.toList, List.filterMap_cons, List.filterMap_nil]
      cases specDecodeOne event <;> simp

/-- An event is decoded exactly when its type is a modeled one. -/
theorem specDecodeOne_isSome (event : jack_midi_event_t) :
    (specDecodeOne event).isSome = specModeled event := by
  simp only [specDecodeOne, specModeled]
  split_ifs <;> simp [*]

/-- Filtering on the modeled types first changes nothing. -/
theorem specDecode_eq (midiBuf : List jack_midi_event_t) :
    specDecode midiBuf = midiBuf.filterMap specDecodeOne := by
  induction midiBuf with
  | nil => rfl
  | cons e es ih =>
    have h := specDecodeOne_isSome e
    unfold specDecode at ih ⊢
    cases hm : specModeled e <;> cases hd : specDecodeOne e <;>
      simp_all [List.filter_cons, List.filterMap_cons]

/-- One decoded event per raw event with a modeled type. -/
theorem specDecode_length (midiBuf : List jack_midi_event_t) :
    (specDecode midiBuf).length = midiBuf.countP specModeled := by
  rw [specDecode_eq]
  induction midiBuf with
  | nil => rfl
  | cons e es ih =>
    have h := specDecodeOne_isSome e
    cases hm : specModeled e <;> cases hd : specDecodeOne e <;>
      simp_all [List.filterMap_cons, List.countP_cons]

/-- The whole loop, started on a queue `q`. -/
theorem midiLoop_all (midiBuf : List jack_midi_event_t) (q : List Event) :
    midiLoop midiBuf midiBuf.length q = q ++ specDecode midiBuf := by
  rw [midiLoop_eq, List.take_length, specDecode_eq]

/-- C1: decoding one raw event with status byte `b`, payload `p` and server
time `t` appends a NoteOff when `b >> 4 = 0x8`, a NoteOn when `b >> 4 = 0x9`,
a ControlChange when `b >> 4 = 0xB`, each with channel `b & 0x0F`, payload
`p` and time `t`, and appends nothing for any other high nibble; the four
byte sequences of the specification decode as it says. -/
theorem C1_midiLoopBody (b : byte) (p : List byte) (t : Nat) (q : List Event) :
    midiLoopBody ⟨t, b, p⟩ q =
        q ++ (if b.val >>> 4 = 0x8 then [Event.NoteOffEvent ⟨0x8, b.val &&& 0x0F, p, t⟩]
              else if b.val >>> 4 = 0x9 then [Event.NoteOnEvent ⟨0x9, b.val &&& 0x0F, p, t⟩]
              else if b.val >>> 4 = 0xB then
                [Event.ControlChangeEvent ⟨0xB, b.val &&& 0x0F, p, t⟩]
              else [])
      ∧ (midiLoopBody ⟨t, 0x90, [0x3C, 0x64]⟩ []).map Event.typed
          = [some (TypedEvent.NoteOn 0 60 100 t)]
      ∧ (midiLoopBody ⟨t, 0x80, [0x3C, 0x40]⟩ []).map Event.typed
          = [some (TypedEvent.NoteOff 0 60 64 t)]
      ∧ (midiLoopBody ⟨t, 0xB0, [0x07, 0x7F]⟩ []).map Event.typed
          = [some (TypedEvent.ControlChange 0 7 127 t)]
      ∧ midiLoopBody ⟨t, 0xA0, [0x3C, 0x10]⟩ q = q := by
  refine ⟨?_, ?_, ?_, ?_, ?_⟩
  · rw [midiLoopBody_eq]
    simp only [specDecodeOne, specTypeNibble, specChannel]
    split_ifs <;> rfl
  · have h : ((0x90 : byte).val >>> 4) = 0x9 := by decide
    have h2 : ((0x90 : byte).val &&& 0x0F) = 0 := by decide
    have h3 : (0x3C : byte).val = 60 ∧ (0x64 : byte).val = 100 := by decide
    simp [midiLoopBody_eq, specDecodeOne, specTypeNibble, specChannel, Event.typed, h, h2, h3]
  · have h : ((0x80 : byte).val >>> 4) = 0x8 := by decide
    have h2 : ((0x80 : byte).val &&& 0x0F) = 0 := by decide
    have h3 : (0x3C : byte).val = 60 ∧ (0x40 : byte).val = 64 := by decide
    simp [midiLoopBody_eq, specDecodeOne, specTypeNibble, specChannel, Event.typed, h, h2, h3]
  · have h : ((0xB0 : byte).val >>> 4) = 0xB := by decide
    have h2 : ((0xB0 : byte).val &&& 0x0F) = 0 := by decide
    have h3 : (0x07 : byte).val = 7 ∧ (0x7F : byte).val = 127 := by decide
    simp [midiLoopBody_eq, specDecodeOne, specTypeNibble, specChannel, Event.typed, h, h2, h3]
  · have h : ((0xA0 : byte).val >>> 4) = 0xA := by decide
    simp [midiLoopBody_eq, specDecodeOne, specTypeNibble, h]

/-- C2: the queue handed to the pipeline is the decoding of the block's raw
events in server order, those of a modeled type kept and each decoded; it has
one entry per raw event of a modeled type; decoding a buffer is decoding its
front part followed by decoding its rest, whatever events either holds; and
`process` runs the pipeline on exactly that state. -/
theorem C2_queue_after_decoding {S σ : Type} (c : Collaborators S σ) (w : World S σ)
    (nframes : Nat) :
    (blockStart c w nframes).midiEvents = specDecode w.midiBuf
      ∧ (blockStart c w nframes).midiEvents.length = w.midiBuf.countP specModeled
      ∧ (∀ front rest : List jack_midi_event_t,
          midiLoop (front ++ rest) (front ++ rest).length []
            = midiLoop front front.length [] ++ midiLoop rest rest.length [])
      ∧ process c w nframes =
          (if (w.self.processing && w.running) && decide (nframes ≤ w.self.bufferSize) then
            process_output (process_pipeline c (blockStart c w nframes) nframes) nframes
          else w) := by
  have h : (blockStart c w nframes).midiEvents = specDecode w.midiBuf := by
    simp [blockStart, process_midi, process_input, midiLoop_all]
  refine ⟨h, ?_, ?_, ?_⟩
  · rw [h, specDecode_length]
  · intro front rest
    rw [midiLoop_all, midiLoop_all, midiLoop_all]
    simp [specDecode_eq, List.filterMap_append]
  · unfold process blockStart
    by_cases h1 : (w.self.processing && w.running) = true
    · by_cases h2 : nframes ≤ w.self.bufferSize
      · simp [h1, h2, Nat.not_lt.mpr h2]
      · simp [h1, h2, Nat.not_le.mp h2]
    · simp [h1]

/-! ## Properties of `process` -/

/-- The input loop has copied the samples below its bound and left the
others. -/
theorem inputLoop_apply {S : Type} (inData input : Nat → S) (n i : Nat) :
    inputLoop inData n input i = if i < n then inData i else input i := by
  induction n with
  | zero => simp [inputLoop]
  | succ k ih =>
    rw [inputLoop]
    by_cases hik : i = k
    · subst hik
      simp
    · rw [Function.update_noteq hik, ih]
      by_cases hlt : i < k
      · simp [hlt, Nat.lt_succ_of_lt hlt]
      · have : ¬ i < k + 1 := by omega
        simp [hlt, this]

/-- The output loop has written the samples below its bound to both port
buffers and left the others. -/
theorem outputLoop_apply {S : Type} (outL outR : Nat → S) (d : (Nat → S) × (Nat → S))
    (n i : Nat) :
    (outputLoop outL outR n d).1 i = (if i < n then outL i else d.1 i)
      ∧ (outputLoop outL outR n d).2 i = (if i < n then outR i else d.2 i) := by
  induction n with
  | zero => simp [outputLoop]
  | succ k ih =>
    rw [outputLoop]
    by_cases hik : i = k
    · subst hik
      simp
    · simp only [Function.update_noteq hik, ih]
      by_cases hlt : i < k
      · simp [hlt, Nat.lt_succ_of_lt hlt]
      · have : ¬ i < k + 1 := by omega
        simp [hlt, this]

/-- A block that passes both guards runs the four parts of `process` in
turn. -/
theorem process_run {S σ : Type} (c : Collaborators S σ) (w : World S σ) (nframes : Nat)
    (hp : w.self.processing = true) (hr : w.running = true)
    (hn : nframes ≤ w.self.bufferSize) :
    process c w nframes
      = process_output (process_pipeline c (blockStart c w nframes) nframes) nframes := by
  simp [process, blockStart, hp, hr, Nat.not_lt.mpr hn]

/-- A block that fails a guard is returned as it came. -/
theorem process_skip {S σ : Type} (c : Collaborators S σ) (w : World S σ) (nframes : Nat)
    (h : w.self.processing = false ∨ w.running = false ∨ w.self.bufferSize < nframes) :
    process c w nframes = w := by
  unfold process
  rcases h with h | h | h
  · simp [h]
  · simp [h]
  · by_cases hg : (!(w.self.processing && w.running)) = true
    · simp [hg]
    · simp [hg, h]

/-- The queue at the start of the pipeline, whatever the queue was before. -/
theorem blockStart_midiEvents {S σ : Type} (c : Collaborators S σ) (w : World S σ)
    (nframes : Nat) :
    (blockStart c w nframes).midiEvents = specDecode w.midiBuf := by
  simp [blockStart, process_midi, process_input, midiLoop_all]

/-- C3: in a processed block the queue is emptied before the first raw event
is decoded: the queue the stages find is the decoding of the current MIDI
buffer started on the empty queue, the same for every prior content `q` of
the queue and for any two blocks with the same MIDI buffer, empty when the
buffer is empty, and the whole result of `process` does not depend on `q`. -/
theorem C3_no_carryover {S σ : Type} (c : Collaborators S σ) (w : World S σ)
    (nframes : Nat) (q : List Event)
    (hp : w.self.processing = true) (hr : w.running = true)
    (hn : nframes ≤ w.self.bufferSize) :
    (blockStart c { w with midiEvents := q } nframes).midiEvents
        = midiLoop w.midiBuf w.midiBuf.length []
      ∧ (blockStart c { w with midiEvents := q } nframes).midiEvents = specDecode w.midiBuf
      ∧ (blockStart c { w with midiEvents := q, midiBuf := [] } nframes).midiEvents = []
      ∧ (∀ (c2 : Collaborators S σ) (w2 : World S σ) (n2 : Nat), w2.midiBuf = w.midiBuf →
          (blockStart c2 w2 n2).midiEvents
            = (blockStart c { w with midiEvents := q } nframes).midiEvents)
      ∧ process c { w with midiEvents := q } nframes = process c w nframes := by
  refine ⟨?_, ?_, ?_, ?_, ?_⟩
  · rw [blockStart_midiEvents, midiLoop_all]
    rfl
  · rw [blockStart_midiEvents]
  · rw [blockStart_midiEvents]
    rfl
  · intro c2 w2 n2 h
    rw [blockStart_midiEvents, blockStart_midiEvents, h]
  · rw [process_run c w nframes hp hr hn,
      process_run c { w with midiEvents := q } nframes hp hr hn]
    rfl

/-- C4: in a processed block the first `nframes` samples of the input port
are in the shared input buffer when the first stage is called; after the
last stage, sample `i` of the left and right output ports is `outL[i]` and
`outR[i]` of the shared buffers as the pipeline left them, for every
`i < nframes`; no port sample at an index `≥ nframes` is written, and nothing
but the two port buffers is changed after the pipeline. -/
theorem C4_block_output {S σ : Type} (c : Collaborators S σ) (w : World S σ)
    (nframes : Nat)
    (hp : w.self.processing = true) (hr : w.running = true)
    (hn : nframes ≤ w.self.bufferSize) :
    (∀ i, i < nframes → (blockStart c w nframes).audioData.input i = w.inData i)
      ∧ (∀ i, i < nframes →
          (process c w nframes).outLData i
              = (process_pipeline c (blockStart c w nframes) nframes).audioData.outL i
            ∧ (process c w nframes).outRData i
              = (process_pipeline c (blockStart c w nframes) nframes).audioData.outR i)
      ∧ (∀ i, nframes ≤ i →
          (process c w nframes).outLData i
              = (process_pipeline c (blockStart c w nframes) nframes).outLData i
            ∧ (process c w nframes).outRData i
              = (process_pipeline c (blockStart c w nframes) nframes).outRData i)
      ∧ (process c w nframes).audioData
          = (process_pipeline c (blockStart c w nframes) nframes).audioData
      ∧ (process c w nframes).midiEvents
          = (process_pipeline c (blockStart c w nframes) nframes).midiEvents
      ∧ (process c w nframes).modules
          = (process_pipeline c (blockStart c w nframes) nframes).modules
      ∧ (process c w nframes).self
          = (process_pipeline c (blockStart c w nframes) nframes).self := by
  rw [process_run c w nframes hp hr hn]
  refine ⟨?_, ?_, ?_, rfl, rfl, rfl, rfl⟩
  · intro i hi
    simp [blockStart, process_midi, process_input, inputLoop_apply, hi]
  · intro i hi
    simp [process_output, outputLoop_apply, hi]
  · intro i hi
    have : ¬ i < nframes := by omega
    simp [process_output, outputLoop_apply, this]

/-- C5: a block with processing disabled, the engine not running or
`nframes > bufferSize` is returned unchanged in every component (port
buffers, shared buffers, event queue, stage objects, the engine's fields),
and any number of repetitions of the call gives the state of one call. -/
theorem C5_skipped_block {S σ : Type} (c : Collaborators S σ) (w : World S σ)
    (nframes : Nat)
    (h : w.self.processing = false ∨ w.running = false ∨ w.self.bufferSize < nframes) :
    process c w nframes = w
      ∧ ∀ k : Nat, (fun v => process c v nframes)^[k + 1] w = process c w nframes := by
  have h1 := process_skip c w nframes h
  refine ⟨h1, ?_⟩
  intro k
  induction k with
  | zero => rfl
  | succ j ih =>
    rw [Function.iterate_succ_apply, h1]
    exact ih.trans h1

/-- C6: in a processed block the seven stage entry points are called in the
order tape pre-process, synth, drums, effect, tape post-process, mixer,
metronome, each on the state its predecessor left, the first on the state
after MIDI decoding, the output written from the state the last one left;
with recording stubs the log grows by exactly those seven calls, each with
the block's `nframes`, each finding the fully decoded queue and the output
port buffers as they were before the block. -/
theorem C6_pipeline_order {S σ : Type} (c : Collaborators S σ) (w : World S σ)
    (clear : (Nat → S) → (Nat → S)) (v : World S (List (StageCall S)))
    (nframes : Nat)
    (hp : w.self.processing = true) (hr : w.running = true)
    (hn : nframes ≤ w.self.bufferSize)
    (hpv : v.self.processing = true) (hrv : v.running = true)
    (hnv : nframes ≤ v.self.bufferSize) :
    process c w nframes
        = process_output
            (c.metronome_process nframes
              (c.mixer_process nframes
                (c.tapedeck_postProcess nframes
                  (c.effect_process nframes
                    (c.drums_process nframes
                      (c.synth_process nframes
                        (c.tapedeck_preProcess nframes (blockStart c w nframes))))))))
            nframes
      ∧ (process (stubs clear) v nframes).modules
          = v.modules ++ specStageOrder.map (fun name =>
              { name := name, nframes := nframes, midiEvents := specDecode v.midiBuf,
                outLData := (List.range nframes).map v.outLData,
                outRData := (List.range nframes).map v.outRData })
      ∧ ((process (stubs clear) v nframes).modules.drop v.modules.length).map
            (fun r => (r.name, r.nframes))
          = [(.tapedeck_preProcess, nframes), (.synth, nframes), (.drums, nframes),
             (.effect, nframes), (.tapedeck_postProcess, nframes), (.mixer, nframes),
             (.metronome, nframes)] := by
  have hlog : (process (stubs clear) v nframes).modules
      = v.modules ++ specStageOrder.map (fun name =>
          { name := name, nframes := nframes, midiEvents := specDecode v.midiBuf,
            outLData := (List.range nframes).map v.outLData,
            outRData := (List.range nframes).map v.outRData }) := by
    rw [process_run (stubs clear) v nframes hpv hrv hnv]
    simp [process_output, process_pipeline, stubs, stub, specStageOrder, blockStart,
      process_midi, process_input, midiLoop_all]
  refine ⟨?_, hlog, ?_⟩
  · rw [process_run c w nframes hp hr hn]
    rfl
  · rw [hlog]
    simp [specStageOrder]

/-! ## Properties of the control path -/

/-- The connect requests of a trace that grew are those of its parts. -/
theorem connectRequests_append (a b : List Call) :
    connectRequests (a ++ b) = connectRequests a ++ connectRequests b := by
  simp [connectRequests, List.filterMap_append]

/-- The test of `init` on the status is never taken. -/
theorem init_serverCheck_false (jackStatus : Nat) : init_serverCheck jackStatus = false := by
  unfold init_serverCheck JackServerStarted
  split_ifs <;> decide

/-- C10 (as the code has it): `connectPorts(src, dest)` makes exactly one
`jack_connect` call and nothing else, with `dest` as the source port and
`src` as the destination port, and returns true exactly when that call
returns `0`. -/
theorem C10_connectPorts (srv : JackServer) (s : Control) (src dest : String) :
    (connectPorts srv s src dest).2.trace = s.trace ++ [Call.jack_connect dest src]
      ∧ (connectPorts srv s src dest).2.self = s.self
      ∧ ((connectPorts srv s src dest).1 = true ↔ srv.connect dest src = 0) := by
  simp [connectPorts, Control.call]

/-- C10 (as stated) fails: `connectPorts("a", "b")` does not ask the server
for the connection with source `a` and destination `b`, and it returns false
on a server that accepts that connection. -/
theorem C10_connectPorts_counterexample :
    oneWayServer.connect "a" "b" = 0
      ∧ (connectPorts oneWayServer exampleControl "a" "b").2.trace
          ≠ exampleControl.trace ++ [Call.jack_connect "a" "b"]
      ∧ (connectPorts oneWayServer exampleControl "a" "b").1 = false := by
  decide

/-- C7: the status test of `init` is false for every status, and on a server
that could not be started (status `0x11`, bit `0x08` clear, no client)
`init` goes on to register all callbacks and to activate before the first
`GLOB.exit()`. -/
theorem C7_init_server_not_started :
    (∀ jackStatus : Nat, init_serverCheck jackStatus = false)
      ∧ (0x11 &&& JackServerStarted = 0)
      ∧ (init failedServer "TOP-1" exampleControl).trace
          = [Call.jack_client_open "TOP-1" 0, Call.jack_set_process_callback,
             Call.jack_set_sample_rate_callback, Call.jack_set_buffer_size_callback,
             Call.jack_set_error_function, Call.jack_set_info_function,
             Call.jack_on_shutdown, Call.jack_get_buffer_size, Call.jack_activate,
             Call.GLOB_exit] := by
  refine ⟨init_serverCheck_false, by decide, ?_⟩
  decide

/-- The names `findPorts` returns: the server's answer, none for `nullptr`. -/
theorem findPorts_fst (srv : JackServer) (s : Control) (criteria : Nat) (type : PortType) :
    (findPorts srv s criteria type).1
      = (srv.get_ports (if type = PortType.AUDIO then "audio" else "midi") criteria).getD [] := by
  simp only [findPorts]
  split <;> simp [*]

/-- The state after `findPorts`: one `jack_get_ports` call was made. -/
theorem findPorts_snd (srv : JackServer) (s : Control) (criteria : Nat) (type : PortType) :
    (findPorts srv s criteria type).2
      = s.call (Call.jack_get_ports (if type = PortType.AUDIO then "audio" else "midi")
          criteria) := by
  simp only [findPorts]
  split <;> rfl

/-- The state after `connectPorts`: one `jack_connect` call was made. -/
theorem connectPorts_snd (srv : JackServer) (s : Control) (src dest : String) :
    (connectPorts srv s src dest).2 = s.call (Call.jack_connect dest src) := rfl

/-- When registering `midiIn` fails, the MIDI part of `setupPorts` makes that
one call and `GLOB.exit()`, nothing more, and returns. -/
theorem setupPorts_midi_fail (srv : JackServer) (s : Control)
    (h : srv.port_register "midiIn" JACK_DEFAULT_MIDI_TYPE JackPortIsInput = none) :
    setupPorts_midi srv s
      = Outcome.returned
          { self := { s.self with ports := { s.self.ports with midiIn := none } },
            trace := s.trace ++
              [Call.jack_port_register "midiIn" JACK_DEFAULT_MIDI_TYPE JackPortIsInput 0,
               Call.GLOB_exit] } := by
  simp [setupPorts_midi, h, Control.call, Control.GLOB_exit]

/-- When registering `input` fails, `setupPorts` makes that one call and
`GLOB.exit()`, nothing more, and returns. -/
theorem setupPorts_input_fail (srv : JackServer) (s : Control)
    (h : srv.port_register "input" JACK_DEFAULT_AUDIO_TYPE JackPortIsInput = none) :
    setupPorts srv s
      = Outcome.returned
          { self := { s.self with ports := { s.self.ports with input := none } },
            trace := s.trace ++
              [Call.jack_port_register "input" JACK_DEFAULT_AUDIO_TYPE JackPortIsInput 0,
               Call.GLOB_exit] } := by
  simp [setupPorts, h, Control.call, Control.GLOB_exit]

/-- The audio part of `setupPorts` when nothing fails: three registrations,
two discoveries, three connection requests, then the MIDI part. -/
theorem setupPorts_audio_ok (srv : JackServer) (s : Control)
    (pin pL pR : jack_port_t) (cap0 p0 : String) (caps ps : List String)
    (hin : srv.port_register "input" JACK_DEFAULT_AUDIO_TYPE JackPortIsInput = some pin)
    (hL : srv.port_register "outLeft" JACK_DEFAULT_AUDIO_TYPE JackPortIsOutput = some pL)
    (hR : srv.port_register "outRight" JACK_DEFAULT_AUDIO_TYPE JackPortIsOutput = some pR)
    (hcap : srv.get_ports "audio" (JackPortIsPhysical ||| JackPortIsOutput)
      = some (cap0 :: caps))
    (hplay : srv.get_ports "audio" (JackPortIsPhysical ||| JackPortIsInput)
      = some (p0 :: ps))
    (hc1 : srv.connect cap0 (srv.port_name pin) = 0)
    (hc2 : srv.connect (srv.port_name pL) p0 = 0)
    (hc3 : srv.connect (srv.port_name pR) (ps.headD p0) = 0) :
    setupPorts srv s
      = setupPorts_midi srv
          { self := { s.self with
              ports := { s.self.ports with input := some pin, outL := some pL,
                                           outR := some pR } },
            trace := s.trace ++
              [Call.jack_port_register "input" JACK_DEFAULT_AUDIO_TYPE JackPortIsInput 0,
               Call.jack_port_register "outLeft" JACK_DEFAULT_AUDIO_TYPE JackPortIsOutput 0,
               Call.jack_port_register "outRight" JACK_DEFAULT_AUDIO_TYPE JackPortIsOutput 0,
               Call.jack_get_ports "audio" (JackPortIsPhysical ||| JackPortIsOutput),
               Call.jack_get_ports "audio" (JackPortIsPhysical ||| JackPortIsInput),
               Call.jack_connect cap0 (srv.port_name pin),
               Call.jack_connect (srv.port_name pL) p0,
               Call.jack_connect (srv.port_name pR) (ps.headD p0)] } := by
  have hidx : (p0 :: ps)[1 % (ps.length + 1)]? = some (ps.headD p0) := by
    cases ps <;> simp
  have hlt : 1 % (ps.length + 1) < (p0 :: ps).length := Nat.mod_lt _ (Nat.succ_pos _)
  have hget : (p0 :: ps)[1 % (ps.length + 1)] = ps.headD p0 := by
    rw [List.getElem?_eq_getElem hlt] at hidx
    exact Option.some.inj hidx
  simp [setupPorts, findPorts, connectPorts, portNameString, Control.call, Control.GLOB_exit,
    hin, hL, hR, hcap, hplay, hc1, hc2, hget]
  intro h
  exact absurd (by simpa using hc3) h

/-- C8: with the input and both output ports registered, capture ports
`cap0 :: caps` and playback ports `p0 :: ps` discovered and the three
connections accepted, the audio part of `setupPorts` makes exactly three
`jack_connect` requests: from the first capture port to the logical input,
from logical outL to playback port `[0]`, from logical outR to playback port
`[1 mod count]`, which is port `[0]` when there is one playback port and
port `[1]` when there are more; the index is within bounds; the MIDI part
follows. -/
theorem C8_audio_autowiring (srv : JackServer) (s : Control)
    (pin pL pR : jack_port_t) (cap0 p0 : String) (caps ps : List String)
    (hin : srv.port_register "input" JACK_DEFAULT_AUDIO_TYPE JackPortIsInput = some pin)
    (hL : srv.port_register "outLeft" JACK_DEFAULT_AUDIO_TYPE JackPortIsOutput = some pL)
    (hR : srv.port_register "outRight" JACK_DEFAULT_AUDIO_TYPE JackPortIsOutput = some pR)
    (hcap : srv.get_ports "audio" (JackPortIsPhysical ||| JackPortIsOutput)
      = some (cap0 :: caps))
    (hplay : srv.get_ports "audio" (JackPortIsPhysical ||| JackPortIsInput)
      = some (p0 :: ps))
    (hc1 : srv.connect cap0 (srv.port_name pin) = 0)
    (hc2 : srv.connect (srv.port_name pL) p0 = 0)
    (hc3 : srv.connect (srv.port_name pR) (ps.headD p0) = 0) :
    setupPorts srv s
        = setupPorts_midi srv
            { self := { s.self with
                ports := { s.self.ports with input := some pin, outL := some pL,
                                             outR := some pR } },
              trace := s.trace ++
                [Call.jack_port_register "input" JACK_DEFAULT_AUDIO_TYPE JackPortIsInput 0,
                 Call.jack_port_register "outLeft" JACK_DEFAULT_AUDIO_TYPE JackPortIsOutput 0,
                 Call.jack_port_register "outRight" JACK_DEFAULT_AUDIO_TYPE JackPortIsOutput 0,
                 Call.jack_get_ports "audio" (JackPortIsPhysical ||| JackPortIsOutput),
                 Call.jack_get_ports "audio" (JackPortIsPhysical ||| JackPortIsInput),
                 Call.jack_connect cap0 (srv.port_name pin),
                 Call.jack_connect (srv.port_name pL) p0,
                 Call.jack_connect (srv.port_name pR) (ps.headD p0)] }
      ∧ 1 % (p0 :: ps).length < (p0 :: ps).length
      ∧ (p0 :: ps)[0]? = some p0
      ∧ (p0 :: ps)[1 % (p0 :: ps).length]? = some (ps.headD p0)
      ∧ ((p0 :: ps).length = 1 → ps.headD p0 = p0)
      ∧ (2 ≤ (p0 :: ps).length → (p0 :: ps)[1]? = some (ps.headD p0)) := by
  refine ⟨setupPorts_audio_ok srv s pin pL pR cap0 p0 caps ps hin hL hR hcap hplay hc1 hc2 hc3,
    ?_, by simp, ?_, ?_, ?_⟩
  · exact Nat.mod_lt _ (Nat.succ_pos _)
  · cases ps <;> simp
  · intro h
    cases ps with
    | nil => rfl
    | cons a as => simp at h
  · intro h
    cases ps with
    | nil => simp at h
    | cons a as => simp

/-- The MIDI part of `setupPorts` never writes the `processing` flag. -/
theorem setupPorts_midi_processing (srv : JackServer) (s : Control) :
    (setupPorts_midi srv s).self.processing = s.self.processing := by
  cases h0 : srv.port_register "midiIn" JACK_DEFAULT_MIDI_TYPE JackPortIsInput with
  | none =>
    rw [setupPorts_midi_fail srv s h0]
    rfl
  | some p =>
    cases hO : srv.port_register "midiOut" JACK_DEFAULT_MIDI_TYPE JackPortIsOutput <;>
    cases hA : (srv.get_ports "midi" (JackPortIsPhysical ||| JackPortIsOutput)).getD [] <;>
    cases hB : (srv.get_ports "midi" (JackPortIsPhysical ||| JackPortIsInput)).getD [] <;>
    simp [setupPorts_midi, findPorts_fst, findPorts_snd, connectPorts_snd, portNameString,
      Control.call, Control.GLOB_exit, Outcome.self, Outcome.state, h0, hO, hA, hB]

/-- Every run of `setupPorts` leaves the `processing` flag alone.  A run
either never registers `midiIn`, or it is the MIDI part run on a state
reached through calls that hold no `GLOB.exit()` and exactly three
`jack_connect` requests. -/
theorem setupPorts_shape (srv : JackServer) (s : Control) :
    (setupPorts srv s).self.processing = s.self.processing
      ∧ (Call.jack_port_register "midiIn" JACK_DEFAULT_MIDI_TYPE JackPortIsInput 0
            ∉ (setupPorts srv s).trace.drop s.trace.length
          ∨ ∃ (s1 : Control) (pre : List Call),
              setupPorts srv s = setupPorts_midi srv s1
                ∧ s1.trace = s.trace ++ pre
                ∧ s1.self.processing = s.self.processing
                ∧ exitCalls pre = 0
                ∧ (connectRequests pre).length = 3) := by
  cases hin : srv.port_register "input" JACK_DEFAULT_AUDIO_TYPE JackPortIsInput with
  | none =>
    rw [setupPorts_input_fail srv s hin]
    refine ⟨rfl, Or.inl ?_⟩
    simp [Outcome.trace, Outcome.state]
  | some pin =>
    rcases hcap : srv.get_ports "audio" (JackPortIsPhysical ||| JackPortIsOutput)
      with _ | _ | ⟨cap0, caps⟩
    · refine ⟨?_, Or.inl ?_⟩ <;>
        simp [setupPorts, findPorts_fst, findPorts_snd, Control.call, Control.GLOB_exit,
          Outcome.trace, Outcome.self, Outcome.state, hin, hcap]
    · refine ⟨?_, Or.inl ?_⟩ <;>
        simp [setupPorts, findPorts_fst, findPorts_snd, Control.call, Control.GLOB_exit,
          Outcome.trace, Outcome.self, Outcome.state, hin, hcap]
    · rcases hplay : srv.get_ports "audio" (JackPortIsPhysical ||| JackPortIsInput)
        with _ | _ | ⟨p0, ps⟩
      · refine ⟨?_, Or.inl ?_⟩ <;>
          simp [setupPorts, findPorts_fst, findPorts_snd, Control.call, Control.GLOB_exit,
            Outcome.trace, Outcome.self, Outcome.state, hin, hcap, hplay]
      · refine ⟨?_, Or.inl ?_⟩ <;>
          simp [setupPorts, findPorts_fst, findPorts_snd, Control.call, Control.GLOB_exit,
            Outcome.trace, Outcome.self, Outcome.state, hin, hcap, hplay]
      · by_cases hc1 : srv.connect cap0 (srv.port_name pin) = 0
        swap
        · refine ⟨?_, Or.inl ?_⟩ <;>
            simp [setupPorts, findPorts_fst, findPorts_snd, connectPorts, portNameString,
              Control.call, Control.GLOB_exit, Outcome.trace, Outcome.self, Outcome.state,
              hin, hcap, hplay, hc1]
        cases hL : srv.port_register "outLeft" JACK_DEFAULT_AUDIO_TYPE JackPortIsOutput with
        | none =>
          refine ⟨?_, Or.inl ?_⟩ <;>
            simp [setupPorts, findPorts_fst, findPorts_snd, connectPorts, portNameString,
              Control.call, Control.GLOB_exit, Outcome.trace, Outcome.self, Outcome.state,
              hin, hcap, hplay, hc1, hL]
        | some pL =>
          by_cases hc2 : srv.connect (srv.port_name pL) p0 = 0
          swap
          · refine ⟨?_, Or.inl ?_⟩ <;>
              simp [setupPorts, findPorts_fst, findPorts_snd, connectPorts, portNameString,
                Control.call, Control.GLOB_exit, Outcome.trace, Outcome.self, Outcome.state,
                hin, hcap, hplay, hc1, hL, hc2]
          cases hR : srv.port_register "outRight" JACK_DEFAULT_AUDIO_TYPE JackPortIsOutput with
          | none =>
            refine ⟨?_, Or.inl ?_⟩ <;>
              simp [setupPorts, findPorts_fst, findPorts_snd, connectPorts, portNameString,
                Control.call, Control.GLOB_exit, Outcome.trace, Outcome.self, Outcome.state,
                hin, hcap, hplay, hc1, hL, hc2, hR]
          | some pR =>
            by_cases hc3 : srv.connect (srv.port_name pR) (ps.headD p0) = 0
            · have h := setupPorts_audio_ok srv s pin pL pR cap0 p0 caps ps hin hL hR hcap
                hplay hc1 hc2 hc3
              refine ⟨?_, Or.inr ⟨_, _, h, rfl, rfl, ?_, ?_⟩⟩
              · rw [h, setupPorts_midi_processing]
              · simp [exitCalls]
              · simp [connectRequests]
            · have hc3b : ¬ srv.connect (srv.port_name pR) (ps.head?.getD p0) = 0 := by
                simpa using hc3
              refine ⟨?_, Or.inl ?_⟩ <;>
                cases ps <;>
                simp [setupPorts, findPorts_fst, findPorts_snd, connectPorts, portNameString,
                  Control.call, Control.GLOB_exit, Outcome.trace, Outcome.self, Outcome.state,
                  hin, hcap, hplay, hc1, hL, hc2, hR] <;>
                simp_all

/-- When activation succeeds, `init` has opened the client, registered the
callbacks, read the buffer size and activated the client before `setupPorts`
starts. -/
theorem init_activates_first (srv : JackServer) (CLIENT_NAME : String) (s : Control)
    (h : srv.activate = 0) :
    init srv CLIENT_NAME s
      = setupPorts srv
          { self := { s.self with client := (srv.client_open CLIENT_NAME JackNullOption).1,
                                  jackStatus := (srv.client_open CLIENT_NAME JackNullOption).2,
                                  bufferSize := srv.get_buffer_size },
            trace := s.trace ++
              [Call.jack_client_open CLIENT_NAME JackNullOption, Call.jack_set_process_callback,
               Call.jack_set_sample_rate_callback, Call.jack_set_buffer_size_callback,
               Call.jack_set_error_function, Call.jack_set_info_function,
               Call.jack_on_shutdown, Call.jack_get_buffer_size, Call.jack_activate] } := by
  simp [init, init_serverCheck_false, Control.call, h]

/-- The method `init` never writes the `processing` flag. -/
theorem init_processing (srv : JackServer) (CLIENT_NAME : String) (s : Control) :
    (init srv CLIENT_NAME s).self.processing = s.self.processing := by
  by_cases h : srv.activate = 0
  · rw [init_activates_first srv CLIENT_NAME s h, (setupPorts_shape srv _).1]
  · simp [init, init_serverCheck_false, Control.call, Control.GLOB_exit, Outcome.self,
      Outcome.state, h]

/-- On a server that refuses `outLeft`, `setupPorts` is left by the exception
at line 135, after the first connection request: `GLOB.exit()` is not called
and `midiIn` is never registered, whatever the server would answer for
it. -/
theorem setupPorts_outLeft_null :
    (setupPorts (outLeftFailServer ["system:playback_1"]) exampleControl).isThrown = true
      ∧ (setupPorts (outLeftFailServer ["system:playback_1"]) exampleControl).trace
          = [Call.jack_port_register "input" JACK_DEFAULT_AUDIO_TYPE JackPortIsInput 0,
             Call.jack_port_register "outLeft" JACK_DEFAULT_AUDIO_TYPE JackPortIsOutput 0,
             Call.jack_port_register "outRight" JACK_DEFAULT_AUDIO_TYPE JackPortIsOutput 0,
             Call.jack_get_ports "audio" (JackPortIsPhysical ||| JackPortIsOutput),
             Call.jack_get_ports "audio" (JackPortIsPhysical ||| JackPortIsInput),
             Call.jack_connect "system:capture_1" "TOP-1:input"] := by
  decide

/-- C9 (as the code has it).  When registering the audio input port fails,
`setupPorts` makes that one call and `GLOB.exit()` and returns: no connection
request at all.  When a run registers the MIDI input port and that fails,
the run returns with `GLOB.exit()` called exactly once, as the call right
after the failed registration: no MIDI connection request; the three audio
connection requests were issued before.  In no run, failing or not, do
`setupPorts` and `init` set the `processing` flag, which `startProcess`
sets; and `init` has activated the client before `setupPorts` starts. -/
theorem C9_required_input_port_failure (srv : JackServer) (CLIENT_NAME : String)
    (s : Control) :
    (srv.port_register "input" JACK_DEFAULT_AUDIO_TYPE JackPortIsInput = none →
        setupPorts srv s
            = Outcome.returned
                { self := { s.self with ports := { s.self.ports with input := none } },
                  trace := s.trace ++
                    [Call.jack_port_register "input" JACK_DEFAULT_AUDIO_TYPE JackPortIsInput 0,
                     Call.GLOB_exit] }
          ∧ connectRequests (setupPorts srv s).trace = connectRequests s.trace)
      ∧ (srv.port_register "midiIn" JACK_DEFAULT_MIDI_TYPE JackPortIsInput = none →
          Call.jack_port_register "midiIn" JACK_DEFAULT_MIDI_TYPE JackPortIsInput 0
              ∈ (setupPorts srv s).trace.drop s.trace.length →
            (setupPorts srv s).isThrown = false
              ∧ ∃ pre : List Call,
                  (setupPorts srv s).trace = s.trace ++ pre ++
                      [Call.jack_port_register "midiIn" JACK_DEFAULT_MIDI_TYPE
                         JackPortIsInput 0,
                       Call.GLOB_exit]
                    ∧ exitCalls pre = 0
                    ∧ (connectRequests pre).length = 3)
      ∧ ((setupPorts srv s).self.processing = s.self.processing
          ∧ (init srv CLIENT_NAME s).self.processing = s.self.processing
          ∧ (startProcess s).self.processing = true)
      ∧ (srv.activate = 0 → ∃ s1 : Control,
          init srv CLIENT_NAME s = setupPorts srv s1
            ∧ s1.trace.getLast? = some Call.jack_activate) := by
  refine ⟨?_, ?_, ⟨(setupPorts_shape srv s).1, init_processing srv CLIENT_NAME s, rfl⟩, ?_⟩
  · intro h1
    refine ⟨setupPorts_input_fail srv s h1, ?_⟩
    rw [setupPorts_input_fail srv s h1]
    simp [connectRequests, Outcome.trace, Outcome.state]
  · intro h1 hmem
    rcases (setupPorts_shape srv s).2 with hno | ⟨s1, pre, heq, htr, _, hex, hcn⟩
    · exact absurd hmem hno
    · rw [heq, setupPorts_midi_fail srv s1 h1]
      refine ⟨rfl, pre, ?_, hex, hcn⟩
      simp [Outcome.trace, Outcome.state, htr]
  · intro h1
    exact ⟨_, init_activates_first srv CLIENT_NAME s h1, by simp⟩

/-- C9 (as stated) fails: on a server that refuses only the MIDI input port,
the run has the MIDI input registration failed and `GLOB.exit()` called once,
and three connection requests were issued to the server. -/
theorem C9_counterexample :
    (midiInFailServer ["system:playback_1", "system:playback_2"]).port_register
        "midiIn" JACK_DEFAULT_MIDI_TYPE JackPortIsInput = none
      ∧ exitCalls (init (midiInFailServer ["system:playback_1", "system:playback_2"])
          "TOP-1" exampleControl).trace = 1
      ∧ connectRequests (init (midiInFailServer ["system:playback_1", "system:playback_2"])
          "TOP-1" exampleControl).trace
          = [("system:capture_1", "TOP-1:input"), ("TOP-1:outLeft", "system:playback_1"),
             ("TOP-1:outRight", "system:playback_2")]
      ∧ connectRequests (setupPorts (midiInFailServer ["system:playback_1", "system:playback_2"])
          exampleControl).trace ≠ [] := by
  decide

/-! ## Properties of `drawing::Point` -/

/-- C11: `operator!=` is not the negation of `operator==`.  It is true
exactly when both coordinates differ, so it is never true together with
`operator==`, but for two points that differ in one coordinate only both are
false: `Point{0, 0}` and `Point{0, 1}` compare neither equal nor unequal, and
so do `Point{0, 0}` and `Point{1, 0}`. -/
theorem C11_point_operatorNe {α : Type} [DecidableEq α] (p q : drawing.Point α) :
    (p.operatorNe q = true ↔ p.x ≠ q.x ∧ p.y ≠ q.y)
      ∧ (p.operatorEq q = true ↔ p = q)
      ∧ (p.operatorNe q && p.operatorEq q) = false
      ∧ (drawing.Point.operatorEq (⟨0, 0⟩ : drawing.Point ℚ) ⟨0, 1⟩ = false
          ∧ drawing.Point.operatorNe (⟨0, 0⟩ : drawing.Point ℚ) ⟨0, 1⟩ = false)
      ∧ (drawing.Point.operatorEq (⟨0, 0⟩ : drawing.Point ℚ) ⟨1, 0⟩ = false
          ∧ drawing.Point.operatorNe (⟨0, 0⟩ : drawing.Point ℚ) ⟨1, 0⟩ = false)
      ∧ drawing.Point.operatorNe (⟨0, 0⟩ : drawing.Point ℚ) ⟨1, 1⟩ = true := by
  refine ⟨?_, ?_, ?_, ⟨by decide, by decide⟩, ⟨by decide, by decide⟩, by decide⟩
  · simp [drawing.Point.operatorNe]
  · cases p
    cases q
    simp [drawing.Point.operatorEq]
  · by_cases hx : p.x = q.x <;> simp [drawing.Point.operatorNe, drawing.Point.operatorEq, hx]

/-! ## The theorems at concrete inputs -/

/-- C3 at a block whose queue still holds an event of the block before: the
stale NoteOn is gone, the queue is the decoding of the current buffer. -/
theorem C3_no_carryover_witness :
    (exampleWorld true 256 []).self.processing = true
      ∧ (exampleWorld true 256 []).running = true
      ∧ 4 ≤ (exampleWorld true 256 []).self.bufferSize
      ∧ (blockStart (stubs id)
            { exampleWorld true 256 [] with
              midiEvents := [Event.NoteOnEvent ⟨0x9, 1, [0x40, 0x7F], 9⟩] } 4).midiEvents
          = specDecode (exampleWorld true 256 []).midiBuf
      ∧ specDecode (exampleWorld true 256 []).midiBuf
          = [Event.NoteOnEvent ⟨0x9, 0, [0x3C, 0x64], 0⟩,
             Event.NoteOffEvent ⟨0x8, 0, [0x3C, 0x40], 5⟩] :=
  ⟨rfl, rfl, by decide,
    (C3_no_carryover (stubs id) (exampleWorld true 256 []) 4
      [Event.NoteOnEvent ⟨0x9, 1, [0x40, 0x7F], 9⟩] rfl rfl (by decide)).2.1,
    by decide⟩

/-- C4 at a block of four frames: output sample 3 is the shared sample 3,
output sample 4 is not written. -/
theorem C4_block_output_witness :
    (exampleWorld true 256 []).self.processing = true
      ∧ (exampleWorld true 256 []).running = true
      ∧ 4 ≤ (exampleWorld true 256 []).self.bufferSize
      ∧ (process (stubs id) (exampleWorld true 256 []) 4).outLData 3 = 6
      ∧ (process (stubs id) (exampleWorld true 256 []) 4).outRData 3 = 9
      ∧ (process (stubs id) (exampleWorld true 256 []) 4).outLData 4 = 7
      ∧ (process (stubs id) (exampleWorld true 256 []) 4).outRData 4 = 8 :=
  ⟨rfl, rfl, by decide,
    ((C4_block_output (stubs id) (exampleWorld true 256 []) 4 rfl rfl (by decide)).2.1 3
      (by decide)).1.trans (by decide),
    ((C4_block_output (stubs id) (exampleWorld true 256 []) 4 rfl rfl (by decide)).2.1 3
      (by decide)).2.trans (by decide),
    ((C4_block_output (stubs id) (exampleWorld true 256 []) 4 rfl rfl (by decide)).2.2.1 4
      (by decide)).1.trans (by decide),
    ((C4_block_output (stubs id) (exampleWorld true 256 []) 4 rfl rfl (by decide)).2.2.1 4
      (by decide)).2.trans (by decide)⟩

/-- C5 at a block of four frames on a buffer size of two. -/
theorem C5_skipped_block_witness :
    ((exampleWorld true 2 []).self.processing = false
        ∨ (exampleWorld true 2 []).running = false
        ∨ (exampleWorld true 2 []).self.bufferSize < 4)
      ∧ process (stubs id) (exampleWorld true 2 []) 4 = exampleWorld true 2 []
      ∧ (fun v => process (stubs id) v 4)^[3] (exampleWorld true 2 [])
          = process (stubs id) (exampleWorld true 2 []) 4 :=
  ⟨Or.inr (Or.inr (by decide)),
    (C5_skipped_block (stubs id) (exampleWorld true 2 []) 4 (Or.inr (Or.inr (by decide)))).1,
    (C5_skipped_block (stubs id) (exampleWorld true 2 []) 4 (Or.inr (Or.inr (by decide)))).2 2⟩

/-- C6 at a block of four frames with recording stubs. -/
theorem C6_pipeline_order_witness :
    (exampleWorld true 256 []).self.processing = true
      ∧ (exampleWorld true 256 []).running = true
      ∧ 4 ≤ (exampleWorld true 256 []).self.bufferSize
      ∧ ((process (stubs id) (exampleWorld true 256 []) 4).modules.drop
            (exampleWorld true 256 []).modules.length).map (fun r => (r.name, r.nframes))
          = [(.tapedeck_preProcess, 4), (.synth, 4), (.drums, 4), (.effect, 4),
             (.tapedeck_postProcess, 4), (.mixer, 4), (.metronome, 4)] :=
  ⟨rfl, rfl, by decide,
    (C6_pipeline_order (stubs id) (exampleWorld true 256 []) id (exampleWorld true 256 []) 4
      rfl rfl (by decide) rfl rfl (by decide)).2.2⟩

/-- C8 at a server with a single playback port: both outputs are wired to
it. -/
theorem C8_audio_autowiring_witness :
    (exampleServer ["system:playback_1"]).port_register "input" JACK_DEFAULT_AUDIO_TYPE
        JackPortIsInput = some 10
      ∧ (exampleServer ["system:playback_1"]).port_register "outLeft" JACK_DEFAULT_AUDIO_TYPE
        JackPortIsOutput = some 11
      ∧ (exampleServer ["system:playback_1"]).port_register "outRight" JACK_DEFAULT_AUDIO_TYPE
        JackPortIsOutput = some 12
      ∧ (exampleServer ["system:playback_1"]).get_ports "audio"
        (JackPortIsPhysical ||| JackPortIsOutput) = some ["system:capture_1", "system:capture_2"]
      ∧ (exampleServer ["system:playback_1"]).get_ports "audio"
        (JackPortIsPhysical ||| JackPortIsInput) = some ["system:playback_1"]
      ∧ connectRequests (setupPorts (exampleServer ["system:playback_1"]) exampleControl).trace
          = [("system:capture_1", "TOP-1:input"), ("TOP-1:outLeft", "system:playback_1"),
             ("TOP-1:outRight", "system:playback_1")] :=
  ⟨by decide, by decide, by decide, by decide, by decide, by
    rw [(C8_audio_autowiring (exampleServer ["system:playback_1"]) exampleControl 10 11 12
      "system:capture_1" "system:playback_1" ["system:capture_2"] []
      (by decide) (by decide) (by decide) (by decide) (by decide)
      (by decide) (by decide) (by decide)).1]
    decide⟩

/-- C9 at a server that refuses the audio input port, and at one that refuses
the MIDI input port in a run that reaches its registration. -/
theorem C9_required_input_port_failure_witness :
    (inputFailServer ["system:playback_1"]).port_register "input" JACK_DEFAULT_AUDIO_TYPE
        JackPortIsInput = none
      ∧ (midiInFailServer ["system:playback_1"]).port_register "midiIn" JACK_DEFAULT_MIDI_TYPE
        JackPortIsInput = none
      ∧ Call.jack_port_register "midiIn" JACK_DEFAULT_MIDI_TYPE JackPortIsInput 0
          ∈ (setupPorts (midiInFailServer ["system:playback_1"]) exampleControl).trace.drop
              exampleControl.trace.length
      ∧ connectRequests (setupPorts (inputFailServer ["system:playback_1"]) exampleControl).trace
          = connectRequests exampleControl.trace
      ∧ (setupPorts (midiInFailServer ["system:playback_1"]) exampleControl).isThrown = false :=
  ⟨by decide, by decide, by decide,
    ((C9_required_input_port_failure (inputFailServer ["system:playback_1"]) "TOP-1"
      exampleControl).1 (by decide)).2,
    ((C9_required_input_port_failure (midiInFailServer ["system:playback_1"]) "TOP-1"
      exampleControl).2.1 (by decide) (by decide)).1⟩

end TOP1
